import Mathlib

/-!
Shallow embedding of src/formant_shift_praat.py.

The script is glue code around the Praat engine (via parselmouth):

  snd = parselmouth.Sound(in_wav)
  pitch = call(snd, "To Pitch", 0.0, f0_min, f0_max)
  f0_values = pitch.selected_array["frequency"]
  f0_values = f0_values[(f0_values > 0) & np.isfinite(f0_values)]
  orig_pitch_median = float(np.median(f0_values)) if len(f0_values) else 200.0
  new_pitch_median = orig_pitch_median * pitch_ratio
  shifted = call(snd, "Change gender...", f0_min, f0_max, formant_ratio,
                 new_pitch_median, 1.0, duration_ratio)
  y = shifted.values.T
  if y.ndim == 2 and y.shape[1] > 1: y = y.mean(axis=1)
  else: y = y.squeeze()
  sf.write(out_wav, y, int(shifted.sampling_frequency))
  return out_wav

Modelling choices:
 - Floating-point sample values, ratios and frequencies are modelled as
   rationals.  Per-frame pitch estimates may be non-finite floats (NaN or
   an infinity), so a pitch-track entry is modelled by the inductive
   F0Entry with one constructor per non-finite class.
 - File paths are opaque identifiers, modelled as naturals.
 - The two Praat calls ("To Pitch" and "Change gender...") and the praat
   sound loaded from in_wav are external collaborators; they are modelled
   by an oracle of type PraatOracle whose operations take the input path
   and may fail with an opaque error PErr (a Python exception).
 - np.median sorts ascending and returns the middle element (odd length)
   or the mean of the two middle elements (even length); any correct sort
   yields the same, so insertionSort is used for executability.
 - shifted.values is the 2-D channels-by-samples buffer of a parselmouth
   Sound, so y = shifted.values.T is samples-by-channels and is always
   2-dimensional; the test "y.ndim == 2 and y.shape[1] > 1" is the test
   that y has more than one column.  For a (possibly empty) well-formed
   matrix, shape[1] is the length of the first row of the transpose when
   that transpose is non-empty, and when the transpose is empty both the
   mean branch and the squeeze branch produce the empty signal.
 - sf.write persists the sample sequence and the sample rate; the write
   together with the Python return value out_wav is modelled by the
   record WrittenFile.  Python's int() truncates toward zero, modelled
   by pyInt.
-/

/-- Opaque error raised by an external collaborator (a Python exception);
only its identity matters to the script, which never inspects it. -/
structure PErr where
  code : ℕ
  deriving DecidableEq

/-- One frame of the pitch track `pitch.selected_array["frequency"]`: a
float that is either finite or one of the non-finite classes. -/
inductive F0Entry where
  | nan
  | posInf
  | negInf
  | finite (q : ℚ)
  deriving DecidableEq

/-- The numpy comparison `x > 0` on a float entry (False for NaN, true for
+inf, false for -inf). -/
def f0gt0 : F0Entry → Bool
  | .nan => false
  | .posInf => true
  | .negInf => false
  | .finite q => decide (0 < q)

/-- The numpy predicate `np.isfinite x`. -/
def isFiniteEntry : F0Entry → Bool
  | .finite _ => true
  | _ => false

/-- The rational value of a finite entry (non-finite entries never survive
the mask, so their value is irrelevant; 0 is used as a placeholder). -/
def f0val : F0Entry → ℚ
  | .finite q => q
  | _ => 0

/-- Line 47 of the source: `f0_values[(f0_values > 0) & np.isfinite(f0_values)]`,
the boolean-mask selection of the strictly positive finite frames. -/
def f0Mask (track : List F0Entry) : List ℚ :=
  (track.filter (fun e => f0gt0 e && isFiniteEntry e)).map f0val

/-- Modelled from the 3.DATA MODEL and 4.1 words of the specification:
"the finite, positive-valued subset of this sequence", used to compare the
source's boolean-mask selection against the specified subset. -/
def voicedValues (track : List F0Entry) : List ℚ :=
  track.filterMap (fun e => match e with
    | .finite q => if 0 < q then some q else none
    | _ => none)

/-- np.median of a sequence of rationals: sort ascending, take the middle
element for odd length, the mean of the two middle elements for even
length.  (The empty case is never reached by the script, which guards on
the length.) -/
def npMedian (l : List ℚ) : ℚ :=
  let s := List.insertionSort (· ≤ ·) l
  if s.length % 2 = 1 then s.getD (s.length / 2) 0
  else (s.getD (s.length / 2 - 1) 0 + s.getD (s.length / 2) 0) / 2

/-- Lines 46-48 of the source: the original pitch estimate, the median of
the masked pitch track when any frame survives the mask and the fixed
fallback 200.0 Hz otherwise. -/
def origPitchMedianOf (track : List F0Entry) : ℚ :=
  let f0_values := f0Mask track
  if f0_values.length ≠ 0 then npMedian f0_values else 200

/-- Python int(): truncation of a rational toward zero. -/
def pyInt (q : ℚ) : ℤ :=
  q.num.tdiv (q.den : ℤ)

/-- The argument tuple of the Praat command "Change gender..." at line 52:
pitch range, formant ratio, target median pitch, pitch-range factor and
duration ratio. -/
structure ChangeGenderArgs where
  f0_min : ℚ
  f0_max : ℚ
  formant_ratio : ℚ
  new_pitch_median : ℚ
  pitch_range_factor : ℚ
  duration_ratio : ℚ
  deriving DecidableEq

/-- A parselmouth Sound as the script consumes it: the 2-D
channels-by-samples value buffer and the reported sampling frequency. -/
structure Sound where
  values : List (List ℚ)
  sampling_frequency : ℚ
  deriving DecidableEq

/-- The external Praat collaborators, indexed by the input path the sound
was loaded from.  toPitch is the "To Pitch" analysis (time step 0.0 is
fixed in the source and omitted); changeGender is the "Change gender..."
transformation.  Either call may raise. -/
structure PraatOracle where
  toPitch : ℕ → ℚ → ℚ → Except PErr (List F0Entry)
  changeGender : ℕ → ChangeGenderArgs → Except PErr Sound

/-- The caller-supplied transform parameters of formant_shift_praat. -/
structure Params where
  formant_ratio : ℚ
  pitch_ratio : ℚ
  duration_ratio : ℚ
  f0_min : ℚ
  f0_max : ℚ
  deriving DecidableEq

/-- The persisted output of sf.write together with the function's return
value: the output path, the mono sample sequence and the integer sample
rate. -/
structure WrittenFile where
  path : ℕ
  samples : List ℚ
  rate : ℤ
  deriving DecidableEq

/-- numpy transpose of the well-formed 2-D buffer m (rows all of equal
length): row j of the transpose collects entry j of every row of m. -/
def npT (m : List (List ℚ)) : List (List ℚ) :=
  (List.range ((m.headD []).length)).map (fun j => m.map (fun row => row.getD j 0))

/-- Lines 64-68 of the source: y = shifted.values.T, then mean over axis 1
when y has more than one column, else squeeze.  The column count of the
(always 2-D) y is read off its first row; when y has no rows both branches
denote the empty signal, as in numpy. -/
def reduceToMono (vals : List (List ℚ)) : List ℚ :=
  let y := npT vals
  if 1 < (y.headD []).length then
    y.map (fun r => r.sum / (r.length : ℚ))
  else
    y.map (fun r => r.headD 0)

/-- Modelled from the 4.3 words of the specification: "average all
channels sample-wise into a single mono channel" for a buffer of
channels of per-channel frame count ns. -/
def meanToMono (vals : List (List ℚ)) (ns : ℕ) : List ℚ :=
  (List.range ns).map (fun i => (vals.map (fun ch => ch.getD i 0)).sum / (vals.length : ℚ))

/-- Lines 42-71 of the source: the function formant_shift_praat.  The
praat oracle stands for the external engine; everything else follows the
source line by line. -/
def formant_shift_praat (praat : PraatOracle) (in_wav out_wav : ℕ) (p : Params) :
    Except PErr WrittenFile := do
  let track ← praat.toPitch in_wav p.f0_min p.f0_max
  let orig_pitch_median := origPitchMedianOf track
  let new_pitch_median := orig_pitch_median * p.pitch_ratio
  let shifted ← praat.changeGender in_wav
    { f0_min := p.f0_min, f0_max := p.f0_max, formant_ratio := p.formant_ratio,
      new_pitch_median := new_pitch_median, pitch_range_factor := 1,
      duration_ratio := p.duration_ratio }
  let y := reduceToMono shifted.values
  Except.ok { path := out_wav, samples := y, rate := pyInt shifted.sampling_frequency }

/-- The argument record the script hands to "Change gender..." once the
pitch track t is known. -/
def argsOf (p : Params) (t : List F0Entry) : ChangeGenderArgs :=
  { f0_min := p.f0_min, f0_max := p.f0_max, formant_ratio := p.formant_ratio,
    new_pitch_median := origPitchMedianOf t * p.pitch_ratio,
    pitch_range_factor := 1, duration_ratio := p.duration_ratio }

/-- Lines 78-86 of the source: the argparse namespace.  A missing optional
flag is none; input and output are required. -/
structure CLIArgs where
  input : Option ℕ
  output : Option ℕ
  formant_ratio : Option ℚ
  pitch_ratio : Option ℚ
  duration_ratio : Option ℚ
  f0_min : Option ℚ
  f0_max : Option ℚ
  deriving DecidableEq

/-- Lines 78-86 of the source: argparse resolution.  Both required flags
must be present (argparse exits with a usage error otherwise, modelled by
PErr codes 1 and 2); each optional flag falls back to its declared
default: formant ratio 1.10, pitch ratio 1.00, duration ratio 1.00,
f0 min 75.0, f0 max 500.0. -/
def parseArgs (a : CLIArgs) : Except PErr (ℕ × ℕ × Params) :=
  match a.input, a.output with
  | some i, some o =>
      Except.ok (i, o,
        { formant_ratio := a.formant_ratio.getD (11 / 10),
          pitch_ratio := a.pitch_ratio.getD 1,
          duration_ratio := a.duration_ratio.getD 1,
          f0_min := a.f0_min.getD 75,
          f0_max := a.f0_max.getD 500 })
  | none, _ => Except.error { code := 1 }
  | some _, none => Except.error { code := 2 }

/-- The console line the front end prints on success; the Python print is
"Saved to: " followed by the value returned by formant_shift_praat, which
is the output path. -/
structure PrintedOutput where
  saved_to : ℕ
  deriving DecidableEq

/-- Lines 77-97 of the source: parse the flags, run formant_shift_praat
once and print the returned path. -/
def cliMain (praat : PraatOracle) (a : CLIArgs) : Except PErr PrintedOutput := do
  let parsed ← parseArgs a
  let result ← formant_shift_praat praat parsed.1 parsed.2.1 parsed.2.2
  Except.ok { saved_to := result.path }

/-- A pitch track with voiced frames 3 Hz and 7 Hz among unvoiced (0),
negative, NaN and infinite frames. -/
def exTrack : List F0Entry :=
  [F0Entry.nan, F0Entry.finite 3, F0Entry.finite 0, F0Entry.finite 7,
   F0Entry.negInf, F0Entry.finite (-2), F0Entry.posInf]

/-- A pitch track with no voiced frame. -/
def noVoiceTrack : List F0Entry :=
  [F0Entry.nan, F0Entry.finite 0, F0Entry.negInf]

/-- The default parameters of the command-line front end. -/
def exParams : Params :=
  { formant_ratio := 11 / 10, pitch_ratio := 1, duration_ratio := 1,
    f0_min := 75, f0_max := 500 }

/-- Parameters with inverted pitch bounds (f0_min greater than f0_max). -/
def invParams : Params :=
  { formant_ratio := 11 / 10, pitch_ratio := 1, duration_ratio := 1,
    f0_min := 500, f0_max := 75 }

/-- A stereo transformer output: two channels of two samples at 16 kHz. -/
def exSound : Sound :=
  { values := [[1, 3], [5, 7]], sampling_frequency := 16000 }

/-- The same sample buffer as exSound at a different reported rate. -/
def exSound2 : Sound :=
  { values := [[1, 3], [5, 7]], sampling_frequency := 8000 }

/-- A mono transformer output whose reported sampling rate is not an
integer. -/
def exSoundFrac : Sound :=
  { values := [[1, 3]], sampling_frequency := 33 / 2 }

/-- An engine whose pitch analysis yields exTrack and whose transformation
yields exSound. -/
def exOracle : PraatOracle :=
  { toPitch := fun _ _ _ => Except.ok exTrack,
    changeGender := fun _ _ => Except.ok exSound }

/-- Like exOracle but the transformation yields exSound2. -/
def exOracle2 : PraatOracle :=
  { toPitch := fun _ _ _ => Except.ok exTrack,
    changeGender := fun _ _ => Except.ok exSound2 }

/-- Like exOracle but the transformation yields the fractional-rate
exSoundFrac. -/
def exOracleFrac : PraatOracle :=
  { toPitch := fun _ _ _ => Except.ok exTrack,
    changeGender := fun _ _ => Except.ok exSoundFrac }

/-- An engine whose pitch analysis finds no voiced frame. -/
def exOracleNoVoice : PraatOracle :=
  { toPitch := fun _ _ _ => Except.ok noVoiceTrack,
    changeGender := fun _ _ => Except.ok exSound }

/-- An engine that raises on every call, as Praat does on invalid
parameter combinations. -/
def errOracle : PraatOracle :=
  { toPitch := fun _ _ _ => Except.error { code := 7 },
    changeGender := fun _ _ => Except.error { code := 7 } }

/-- The argparse namespace with only the two required flags supplied. -/
def exCLI : CLIArgs :=
  { input := some 0, output := some 1, formant_ratio := none,
    pitch_ratio := none, duration_ratio := none, f0_min := none, f0_max := none }

/-- The argparse namespace with only the required input and output flags
present, as built by the front end when no optional flag is given. -/
def mkRequiredOnly (i o : ℕ) : CLIArgs :=
  { input := some i, output := some o, formant_ratio := none,
    pitch_ratio := none, duration_ratio := none, f0_min := none,
    f0_max := none }


/-- The boolean-mask selection of line 47 selects exactly the finite,
strictly positive frames, in order. -/
theorem f0Mask_eq_voicedValues (track : List F0Entry) :
    f0Mask track = voicedValues track := by
  induction track with
  | nil => rfl
  | cons e t ih =>
    simp only [f0Mask, voicedValues, List.filter_cons, List.filterMap_cons] at ih ⊢
    cases e with
    | nan => simpa [f0gt0, isFiniteEntry] using ih
    | posInf => simpa [f0gt0, isFiniteEntry] using ih
    | negInf => simpa [f0gt0, isFiniteEntry] using ih
    | finite q =>
      by_cases hq : 0 < q
      · simpa [f0gt0, isFiniteEntry, f0val, hq] using ih
      · simpa [f0gt0, isFiniteEntry, f0val, hq] using ih

/-- Every value surviving the mask is strictly positive. -/
theorem f0Mask_pos (track : List F0Entry) (x : ℚ) (hx : x ∈ f0Mask track) :
    0 < x := by
  unfold f0Mask at hx
  obtain ⟨e, he, rfl⟩ := List.mem_map.mp hx
  obtain ⟨-, hcond⟩ := List.mem_filter.mp he
  cases e with
  | nan => simp [f0gt0, isFiniteEntry] at hcond
  | posInf => simp [f0gt0, isFiniteEntry] at hcond
  | negInf => simp [f0gt0, isFiniteEntry] at hcond
  | finite q =>
    simp only [f0gt0, isFiniteEntry, Bool.and_true, decide_eq_true_eq] at hcond
    simpa [f0val] using hcond

/-- The median of a non-empty list of strictly positive rationals is
strictly positive. -/
theorem npMedian_pos (l : List ℚ) (hpos : ∀ x ∈ l, 0 < x) (hne : l ≠ []) :
    0 < npMedian l := by
  unfold npMedian
  have hperm : List.Perm (List.insertionSort (· ≤ ·) l) l :=
    List.perm_insertionSort _ l
  have hmem : ∀ x ∈ List.insertionSort (· ≤ ·) l, 0 < x := fun x hx =>
    hpos x (hperm.mem_iff.mp hx)
  have hlen : (List.insertionSort (· ≤ ·) l).length = l.length := hperm.length_eq
  have hlpos : 0 < (List.insertionSort (· ≤ ·) l).length := by
    rw [hlen]
    exact List.length_pos.mpr hne
  set s := List.insertionSort (· ≤ ·) l with hsdef
  have hgetD : ∀ n, n < s.length → 0 < s.getD n 0 := by
    intro n hn
    rw [List.getD_eq_getElem s 0 hn]
    exact hmem _ (List.getElem_mem hn)
  by_cases hodd : s.length % 2 = 1
  · rw [if_pos hodd]
    exact hgetD _ (Nat.div_lt_self hlpos (by norm_num))
  · rw [if_neg hodd]
    have h1 : s.length / 2 < s.length := Nat.div_lt_self hlpos (by norm_num)
    have h2 : s.length / 2 - 1 < s.length := lt_of_le_of_lt (Nat.sub_le _ 1) h1
    have ha := hgetD _ h2
    have hb := hgetD _ h1
    positivity

/-- When the "To Pitch" call raises, the script re-raises the same error
unchanged. -/
theorem run_pitch_error (praat : PraatOracle) (in_wav out_wav : ℕ) (p : Params)
    (e : PErr) (h : praat.toPitch in_wav p.f0_min p.f0_max = Except.error e) :
    formant_shift_praat praat in_wav out_wav p = Except.error e := by
  simp [formant_shift_praat, h, Bind.bind, Except.bind]

/-- Once the pitch track is known, the run is the "Change gender..." call
on the argument record argsOf followed by channel reduction and the
write. -/
theorem run_with_track (praat : PraatOracle) (in_wav out_wav : ℕ) (p : Params)
    (t : List F0Entry) (h : praat.toPitch in_wav p.f0_min p.f0_max = Except.ok t) :
    formant_shift_praat praat in_wav out_wav p =
      Except.bind (praat.changeGender in_wav (argsOf p t)) (fun shifted =>
        Except.ok { path := out_wav, samples := reduceToMono shifted.values,
                    rate := pyInt shifted.sampling_frequency }) := by
  simp [formant_shift_praat, argsOf, h, Bind.bind, Except.bind]

/-- When both collaborator calls succeed the run succeeds, writing the
reduced samples at the truncated reported rate and returning the output
path. -/
theorem run_ok (praat : PraatOracle) (in_wav out_wav : ℕ) (p : Params)
    (t : List F0Entry) (s : Sound)
    (ht : praat.toPitch in_wav p.f0_min p.f0_max = Except.ok t)
    (hs : praat.changeGender in_wav (argsOf p t) = Except.ok s) :
    formant_shift_praat praat in_wav out_wav p =
      Except.ok { path := out_wav, samples := reduceToMono s.values,
                  rate := pyInt s.sampling_frequency } := by
  rw [run_with_track praat in_wav out_wav p t ht, hs]
  rfl

/-- When the "Change gender..." call raises, the script re-raises the same
error unchanged. -/
theorem run_cg_error (praat : PraatOracle) (in_wav out_wav : ℕ) (p : Params)
    (t : List F0Entry) (e : PErr)
    (ht : praat.toPitch in_wav p.f0_min p.f0_max = Except.ok t)
    (hs : praat.changeGender in_wav (argsOf p t) = Except.error e) :
    formant_shift_praat praat in_wav out_wav p = Except.error e := by
  rw [run_with_track praat in_wav out_wav p t ht, hs]
  rfl

/-- Every successful run returns the output path it was given. -/
theorem run_ok_path (praat : PraatOracle) (in_wav out_wav : ℕ) (p : Params)
    (w : WrittenFile) (h : formant_shift_praat praat in_wav out_wav p = Except.ok w) :
    w.path = out_wav := by
  cases ht : praat.toPitch in_wav p.f0_min p.f0_max with
  | error e =>
    rw [run_pitch_error praat in_wav out_wav p e ht] at h
    cases h
  | ok t =>
    rw [run_with_track praat in_wav out_wav p t ht] at h
    cases hs : praat.changeGender in_wav (argsOf p t) with
    | error e =>
      rw [hs] at h
      cases h
    | ok s =>
      rw [hs] at h
      simp only [Except.bind, Except.ok.injEq] at h
      rw [← h]

/-- Reconstruction of a list from its getD values over its index range. -/
theorem range_map_getD (l : List ℚ) :
    (List.range l.length).map (fun j => l.getD j 0) = l := by
  induction l with
  | nil => rfl
  | cons a t ih =>
    rw [List.length_cons, List.range_succ_eq_map, List.map_cons, List.map_map]
    simp only [Function.comp_def, List.getD_cons_zero, List.getD_cons_succ]
    rw [ih]

/-- Channel reduction of a well-formed multi-channel buffer is the
sample-wise mean of all channels. -/
theorem reduceToMono_mean (vals : List (List ℚ)) (ns : ℕ)
    (hne : vals ≠ []) (hwf : ∀ ch ∈ vals, ch.length = ns) (h2 : 1 < vals.length) :
    reduceToMono vals = meanToMono vals ns := by
  obtain ⟨c, vs, rfl⟩ := List.exists_cons_of_ne_nil hne
  have hc : c.length = ns := hwf c (List.mem_cons_self c vs)
  have hy : npT (c :: vs) =
      (List.range ns).map (fun j => (c :: vs).map (fun row => row.getD j 0)) := by
    simp [npT, hc]
  cases ns with
  | zero =>
    simp only [reduceToMono, hy, meanToMono, List.range_zero, List.map_nil]
    split <;> rfl
  | succ m =>
    have hcond : 1 < ((npT (c :: vs)).headD []).length := by
      rw [hy, List.range_succ_eq_map, List.map_cons, List.headD_cons, List.length_map]
      exact h2
    simp only [reduceToMono]
    rw [if_pos hcond, hy, List.map_map]
    unfold meanToMono
    apply List.map_congr_left
    intro j hj
    simp [Function.comp, List.length_map]

/-- Channel reduction of a single-channel buffer squeezes it to the flat
sample sequence of that channel. -/
theorem reduceToMono_single (c : List ℚ) : reduceToMono [c] = c := by
  have hy : npT [c] = (List.range c.length).map (fun j => [c.getD j 0]) := by
    simp [npT]
  have hcond : ¬ 1 < ((npT [c]).headD []).length := by
    rw [hy]
    cases hn : c.length with
    | zero => simp
    | succ m => simp [List.range_succ_eq_map]
  simp only [reduceToMono]
  rw [if_neg hcond, hy, List.map_map]
  simpa [Function.comp] using range_map_getD c

/-- Channel reduction of a well-formed non-empty buffer preserves the
per-channel frame count. -/
theorem reduceToMono_length (vals : List (List ℚ)) (ns : ℕ)
    (hne : vals ≠ []) (hwf : ∀ ch ∈ vals, ch.length = ns) :
    (reduceToMono vals).length = ns := by
  obtain ⟨c, vs, rfl⟩ := List.exists_cons_of_ne_nil hne
  have hc : c.length = ns := hwf c (List.mem_cons_self c vs)
  simp only [reduceToMono, npT]
  split <;> simp [hc]

/-- Evaluation: the voiced subset of exTrack. -/
theorem exTrack_voiced_eval : voicedValues exTrack = [3, 7] := by
  norm_num [voicedValues, exTrack, List.filterMap_cons]

/-- Evaluation: the original pitch estimate of exTrack. -/
theorem exTrack_median_eval : origPitchMedianOf exTrack = 5 := by
  simp only [origPitchMedianOf, f0Mask_eq_voicedValues, exTrack_voiced_eval]
  norm_num [npMedian, List.insertionSort, List.orderedInsert]

/-- Evaluation: channel reduction of the stereo buffer of exSound. -/
theorem reduce_ex_eval : reduceToMono [[1, 3], [5, 7]] = [3, 5] := by
  rw [reduceToMono_mean [[1, 3], [5, 7]] 2 (by simp) (by simp) (by norm_num)]
  norm_num [meanToMono, List.range_succ]

/-- Evaluation: the full run of exOracle on the default parameters. -/
theorem run_exOracle_eval : formant_shift_praat exOracle 0 1 exParams =
    Except.ok { path := 1, samples := [3, 5], rate := 16000 } := by
  rw [run_ok exOracle 0 1 exParams exTrack exSound rfl rfl]
  have h1 : reduceToMono exSound.values = [3, 5] := reduce_ex_eval
  have h2 : pyInt exSound.sampling_frequency = 16000 := by
    norm_num [pyInt, exSound, Int.tdiv]
  rw [h1, h2]

/-- C1: for every pitch-estimate sequence containing at least one finite,
strictly positive entry, the original pitch estimate computed by
formant_shift_praat equals the median of exactly the subset of entries
that are finite and strictly greater than zero, with zero and non-finite
entries excluded before aggregation. -/
theorem c1_orig_pitch_is_median_of_voiced (track : List F0Entry)
    (h : voicedValues track ≠ []) :
    origPitchMedianOf track = npMedian (voicedValues track) := by
  simp only [origPitchMedianOf, f0Mask_eq_voicedValues]
  rw [if_pos (fun hl => h (List.length_eq_zero.mp hl))]

/-- C1 witness: on exTrack the voiced subset is non-empty and the original
pitch estimate is its median. -/
theorem c1_orig_pitch_is_median_of_voiced_witness :
    voicedValues exTrack ≠ [] ∧
    origPitchMedianOf exTrack = npMedian (voicedValues exTrack) :=
  ⟨by simp [exTrack_voiced_eval],
   c1_orig_pitch_is_median_of_voiced exTrack (by simp [exTrack_voiced_eval])⟩

/-- C2: when the pitch analysis yields no finite, strictly positive frame,
the original pitch estimate is exactly 200 Hz, the target-pitch base
handed to the transformer is 200 times the pitch ratio, and the invocation
completes successfully rather than raising. -/
theorem c2_no_voiced_fallback_200 (praat : PraatOracle) (in_wav out_wav : ℕ)
    (p : Params) (t : List F0Entry) (s : Sound)
    (hnv : voicedValues t = [])
    (ht : praat.toPitch in_wav p.f0_min p.f0_max = Except.ok t)
    (hs : praat.changeGender in_wav (argsOf p t) = Except.ok s) :
    origPitchMedianOf t = 200 ∧
    (argsOf p t).new_pitch_median = 200 * p.pitch_ratio ∧
    ∃ w, formant_shift_praat praat in_wav out_wav p = Except.ok w := by
  have hmask : f0Mask t = [] := (f0Mask_eq_voicedValues t).trans hnv
  have h200 : origPitchMedianOf t = 200 := by
    simp [origPitchMedianOf, hmask]
  exact ⟨h200, by simp [argsOf, h200],
    ⟨_, run_ok praat in_wav out_wav p t s ht hs⟩⟩

/-- C2 witness: an engine that finds no voiced frame falls back to 200 Hz
and still completes. -/
theorem c2_no_voiced_fallback_200_witness :
    origPitchMedianOf noVoiceTrack = 200 ∧
    (argsOf exParams noVoiceTrack).new_pitch_median = 200 * exParams.pitch_ratio ∧
    ∃ w, formant_shift_praat exOracleNoVoice 0 1 exParams = Except.ok w :=
  c2_no_voiced_fallback_200 exOracleNoVoice 0 1 exParams noVoiceTrack exSound
    (by norm_num [voicedValues, noVoiceTrack, List.filterMap_cons]) rfl rfl

/-- C3: for every well-formed transformer-returned buffer, the persisted
signal is the sample-wise arithmetic mean of all channels when there is
more than one channel, and the squeezed flat sample sequence of the single
channel otherwise; either way the result is a single flat (mono) sample
sequence. -/
theorem c3_mono_reduction (vals : List (List ℚ)) (ns : ℕ)
    (hne : vals ≠ []) (hwf : ∀ ch ∈ vals, ch.length = ns) :
    (1 < vals.length → reduceToMono vals = meanToMono vals ns) ∧
    (vals.length = 1 → reduceToMono vals = vals.headD []) := by
  refine ⟨fun h2 => reduceToMono_mean vals ns hne hwf h2, fun h1 => ?_⟩
  obtain ⟨c, rfl⟩ : ∃ c, vals = [c] := by
    cases vals with
    | nil => cases hne rfl
    | cons c vs =>
      cases vs with
      | nil => exact ⟨c, rfl⟩
      | cons d ds => simp at h1
  simpa using reduceToMono_single c

/-- C3 witness: on the concrete stereo buffer of exSound both branch
descriptions hold. -/
theorem c3_mono_reduction_witness :
    (1 < ([[1, 3], [5, 7]] : List (List ℚ)).length →
      reduceToMono [[1, 3], [5, 7]] = meanToMono [[1, 3], [5, 7]] 2) ∧
    (([[1, 3], [5, 7]] : List (List ℚ)).length = 1 →
      reduceToMono [[1, 3], [5, 7]] = [[1, 3], [5, 7]].headD []) :=
  c3_mono_reduction [[1, 3], [5, 7]] 2 (by simp) (by simp)

/-- C4 counterexample: a successful invocation in which the transformer
reports the non-integral sampling rate 33/2 while the written rate is its
truncation 16, so the written rate does not equal the reported rate. -/
theorem c4_written_rate_counterexample :
    formant_shift_praat exOracleFrac 0 1 exParams =
      Except.ok { path := 1, samples := [1, 3], rate := 16 } ∧
    exOracleFrac.changeGender 0 (argsOf exParams exTrack) = Except.ok exSoundFrac ∧
    exSoundFrac.sampling_frequency = 33 / 2 ∧
    ((16 : ℚ) ≠ 33 / 2) := by
  refine ⟨?_, rfl, rfl, by norm_num⟩
  rw [run_ok exOracleFrac 0 1 exParams exTrack exSoundFrac rfl rfl]
  have h1 : reduceToMono exSoundFrac.values = [1, 3] := reduceToMono_single [1, 3]
  have h2 : pyInt exSoundFrac.sampling_frequency = 16 := by
    norm_num [pyInt, exSoundFrac, Int.tdiv]
  rw [h1, h2]

/-- C4 (amended): for every invocation that succeeds, the sample rate
written to the output file is the truncation toward zero (Python int) of
the sampling rate reported by the transformer, hence equals it exactly
whenever the reported rate is an integer; the input rate plays no role. -/
theorem c4_written_rate_truncated (praat : PraatOracle) (in_wav out_wav : ℕ)
    (p : Params) (t : List F0Entry) (s : Sound)
    (ht : praat.toPitch in_wav p.f0_min p.f0_max = Except.ok t)
    (hs : praat.changeGender in_wav (argsOf p t) = Except.ok s) :
    ∃ w, formant_shift_praat praat in_wav out_wav p = Except.ok w ∧
      w.rate = pyInt s.sampling_frequency ∧
      (s.sampling_frequency.den = 1 → (w.rate : ℚ) = s.sampling_frequency) := by
  refine ⟨_, run_ok praat in_wav out_wav p t s ht hs, rfl, fun hden => ?_⟩
  have htr : pyInt s.sampling_frequency = s.sampling_frequency.num := by
    rw [pyInt, hden, Nat.cast_one]
    exact Int.tdiv_one _
  show ((pyInt s.sampling_frequency : ℤ) : ℚ) = s.sampling_frequency
  rw [htr]
  exact (Rat.den_eq_one_iff _).mp hden

/-- C4 (amended) witness: on exSound the reported rate 16000 is integral
and the written rate equals it. -/
theorem c4_written_rate_truncated_witness :
    ∃ w, formant_shift_praat exOracle 0 1 exParams = Except.ok w ∧
      w.rate = pyInt exSound.sampling_frequency ∧
      (exSound.sampling_frequency.den = 1 →
        (w.rate : ℚ) = exSound.sampling_frequency) :=
  c4_written_rate_truncated exOracle 0 1 exParams exTrack exSound rfl rfl

/-- C5: the target median pitch handed to the transformer is the original
pitch estimate times the pitch ratio, the pitch-range-scaling factor is
the fixed constant 1 for every caller-supplied parameter set, and the run
invokes the transformer on exactly this argument record. -/
theorem c5_target_pitch_and_fixed_range_factor (p : Params) (t : List F0Entry) :
    (argsOf p t).new_pitch_median = origPitchMedianOf t * p.pitch_ratio ∧
    (argsOf p t).pitch_range_factor = 1 ∧
    (∀ (praat : PraatOracle) (in_wav out_wav : ℕ),
      praat.toPitch in_wav p.f0_min p.f0_max = Except.ok t →
      formant_shift_praat praat in_wav out_wav p =
        Except.bind (praat.changeGender in_wav (argsOf p t)) (fun shifted =>
          Except.ok { path := out_wav, samples := reduceToMono shifted.values,
                      rate := pyInt shifted.sampling_frequency })) :=
  ⟨rfl, rfl, fun praat in_wav out_wav ht =>
    run_with_track praat in_wav out_wav p t ht⟩

/-- C5 witness: the factored form of the run at a concrete engine. -/
theorem c5_target_pitch_and_fixed_range_factor_witness :
    formant_shift_praat exOracle 0 1 exParams =
      Except.bind (exOracle.changeGender 0 (argsOf exParams exTrack))
        (fun shifted =>
          Except.ok { path := 1, samples := reduceToMono shifted.values,
                      rate := pyInt shifted.sampling_frequency }) :=
  (c5_target_pitch_and_fixed_range_factor exParams exTrack).2.2 exOracle 0 1 rfl

/-- C6: the parameters reach the collaborators uninspected (no positivity
or ordering validation), and any error either collaborator raises is the
run's result, unmodified, with no translation, recovery or retry. -/
theorem c6_passthrough_and_error_propagation (praat : PraatOracle)
    (in_wav out_wav : ℕ) (p : Params) :
    (∀ t, (argsOf p t).f0_min = p.f0_min ∧ (argsOf p t).f0_max = p.f0_max ∧
      (argsOf p t).formant_ratio = p.formant_ratio ∧
      (argsOf p t).duration_ratio = p.duration_ratio) ∧
    (∀ e, praat.toPitch in_wav p.f0_min p.f0_max = Except.error e →
      formant_shift_praat praat in_wav out_wav p = Except.error e) ∧
    (∀ t e, praat.toPitch in_wav p.f0_min p.f0_max = Except.ok t →
      praat.changeGender in_wav (argsOf p t) = Except.error e →
      formant_shift_praat praat in_wav out_wav p = Except.error e) :=
  ⟨fun _ => ⟨rfl, rfl, rfl, rfl⟩,
   fun e he => run_pitch_error praat in_wav out_wav p e he,
   fun t e ht hs => run_cg_error praat in_wav out_wav p t e ht hs⟩

/-- C6 witness: with inverted bounds (f0_min 500, f0_max 75) the engine
error 7 is the result of the run, unmodified. -/
theorem c6_passthrough_and_error_propagation_witness :
    formant_shift_praat errOracle 0 1 invParams = Except.error { code := 7 } ∧
    invParams.f0_min = 500 ∧ invParams.f0_max = 75 :=
  ⟨(c6_passthrough_and_error_propagation errOracle 0 1 invParams).2.1
      { code := 7 } rfl,
   rfl, rfl⟩

/-- C7: the front end requires the input and output flags, fills the
optional flags with the defaults 1.10, 1.00, 1.00, 75.0 and 500.0, and on
success formant_shift_praat returns the output path, which the front end
prints. -/
theorem c7_cli_contract (praat : PraatOracle) :
    (∀ i o, parseArgs (mkRequiredOnly i o) = Except.ok (i, o, exParams)) ∧
    (∀ a : CLIArgs, a.input = none → ∃ e, parseArgs a = Except.error e) ∧
    (∀ a : CLIArgs, a.output = none → ∃ e, parseArgs a = Except.error e) ∧
    (∀ a i o p w, parseArgs a = Except.ok (i, o, p) →
      formant_shift_praat praat i o p = Except.ok w →
      w.path = o ∧ cliMain praat a = Except.ok { saved_to := o }) := by
  refine ⟨fun i o => rfl, ?_, ?_, ?_⟩
  · intro a h
    obtain ⟨ai, ao, a1, a2, a3, a4, a5⟩ := a
    simp only at h
    subst h
    exact ⟨{ code := 1 }, by cases ao <;> rfl⟩
  · intro a h
    obtain ⟨ai, ao, a1, a2, a3, a4, a5⟩ := a
    simp only at h
    subst h
    cases ai with
    | none => exact ⟨{ code := 1 }, rfl⟩
    | some i => exact ⟨{ code := 2 }, rfl⟩
  · intro a i o p w hparse hrun
    have hp := run_ok_path praat i o p w hrun
    refine ⟨hp, ?_⟩
    simp [cliMain, hparse, Bind.bind, Except.bind, hrun, hp]

/-- C7 witness: with only the required flags the defaults are filled in,
the run succeeds, returns the output path and the front end prints it. -/
theorem c7_cli_contract_witness :
    ({ path := 1, samples := [3, 5], rate := 16000 } : WrittenFile).path = 1 ∧
    cliMain exOracle exCLI = Except.ok { saved_to := 1 } :=
  (c7_cli_contract exOracle).2.2.2 exCLI 0 1 exParams
    { path := 1, samples := [3, 5], rate := 16000 } rfl run_exOracle_eval

/-- C8: channel reduction is deterministic and a pure function of the
transformer-returned sample buffer alone (two runs whose transformer
outputs carry the same buffer persist identical mono output), and the only
reduction policies it applies are sample-wise mean-to-mono and the
single-channel squeeze. -/
theorem c8_reduction_deterministic_and_pure :
    (∀ (o₁ o₂ : PraatOracle) (in₁ in₂ out₁ out₂ : ℕ) (p₁ p₂ : Params)
        (t₁ t₂ : List F0Entry) (s₁ s₂ : Sound),
      o₁.toPitch in₁ p₁.f0_min p₁.f0_max = Except.ok t₁ →
      o₁.changeGender in₁ (argsOf p₁ t₁) = Except.ok s₁ →
      o₂.toPitch in₂ p₂.f0_min p₂.f0_max = Except.ok t₂ →
      o₂.changeGender in₂ (argsOf p₂ t₂) = Except.ok s₂ →
      s₁.values = s₂.values →
      ∃ w₁ w₂, formant_shift_praat o₁ in₁ out₁ p₁ = Except.ok w₁ ∧
        formant_shift_praat o₂ in₂ out₂ p₂ = Except.ok w₂ ∧
        w₁.samples = w₂.samples) ∧
    (∀ (vals : List (List ℚ)) (ns : ℕ), vals ≠ [] →
      (∀ ch ∈ vals, ch.length = ns) →
      reduceToMono vals = meanToMono vals ns ∨
        reduceToMono vals = vals.headD []) := by
  constructor
  · intro o₁ o₂ in₁ in₂ out₁ out₂ p₁ p₂ t₁ t₂ s₁ s₂ ht₁ hs₁ ht₂ hs₂ hv
    refine ⟨_, _, run_ok o₁ in₁ out₁ p₁ t₁ s₁ ht₁ hs₁,
      run_ok o₂ in₂ out₂ p₂ t₂ s₂ ht₂ hs₂, ?_⟩
    simp only
    rw [hv]
  · intro vals ns hne hwf
    match vals, hne with
    | [c], _ =>
      right
      simpa using reduceToMono_single c
    | c :: d :: rest, _ =>
      left
      exact reduceToMono_mean (c :: d :: rest) ns (by simp) hwf
        (by simp only [List.length_cons]; omega)

/-- C8 witness: two engines returning the same stereo buffer at different
rates persist identical mono output. -/
theorem c8_reduction_deterministic_and_pure_witness :
    ∃ w₁ w₂, formant_shift_praat exOracle 0 1 exParams = Except.ok w₁ ∧
      formant_shift_praat exOracle2 2 3 exParams = Except.ok w₂ ∧
      w₁.samples = w₂.samples :=
  c8_reduction_deterministic_and_pure.1 exOracle exOracle2 0 2 1 3
    exParams exParams exTrack exTrack exSound exSound2 rfl rfl rfl rfl rfl

/-- C9: channel reduction preserves the number of sample frames: a
successful run on a well-formed transformer output with per-channel frame
count ns writes a mono sequence of exactly ns samples. -/
theorem c9_frame_count_preserved (praat : PraatOracle) (in_wav out_wav : ℕ)
    (p : Params) (t : List F0Entry) (s : Sound) (ns : ℕ)
    (ht : praat.toPitch in_wav p.f0_min p.f0_max = Except.ok t)
    (hs : praat.changeGender in_wav (argsOf p t) = Except.ok s)
    (hne : s.values ≠ []) (hwf : ∀ ch ∈ s.values, ch.length = ns) :
    ∃ w, formant_shift_praat praat in_wav out_wav p = Except.ok w ∧
      w.samples.length = ns :=
  ⟨_, run_ok praat in_wav out_wav p t s ht hs,
   reduceToMono_length s.values ns hne hwf⟩

/-- C9 witness: the stereo two-frame buffer of exSound is written as two
mono frames. -/
theorem c9_frame_count_preserved_witness :
    ∃ w, formant_shift_praat exOracle 0 1 exParams = Except.ok w ∧
      w.samples.length = 2 :=
  c9_frame_count_preserved exOracle 0 1 exParams exTrack exSound 2 rfl rfl
    (by simp [exSound]) (by simp [exSound])

/-- C10: the original pitch estimate is always strictly positive: it is
either the median of the non-empty masked set of strictly positive finite
values or the constant 200, so the target pitch is positive whenever the
pitch ratio is. -/
theorem c10_pitch_estimate_positive (track : List F0Entry) (r : ℚ) :
    0 < origPitchMedianOf track ∧
    ((f0Mask track ≠ [] ∧ origPitchMedianOf track = npMedian (f0Mask track)) ∨
      (f0Mask track = [] ∧ origPitchMedianOf track = 200)) ∧
    (0 < r → 0 < origPitchMedianOf track * r) := by
  have hchar : (f0Mask track ≠ [] ∧
      origPitchMedianOf track = npMedian (f0Mask track)) ∨
      (f0Mask track = [] ∧ origPitchMedianOf track = 200) := by
    by_cases h : f0Mask track = []
    · exact Or.inr ⟨h, by simp [origPitchMedianOf, h]⟩
    · refine Or.inl ⟨h, ?_⟩
      simp only [origPitchMedianOf]
      rw [if_pos (fun hl => h (List.length_eq_zero.mp hl))]
  have hpos : 0 < origPitchMedianOf track := by
    rcases hchar with ⟨hne, heq⟩ | ⟨-, heq⟩
    · rw [heq]
      exact npMedian_pos _ (f0Mask_pos track) hne
    · rw [heq]
      norm_num
  exact ⟨hpos, hchar, fun hr => mul_pos hpos hr⟩

/-- C10 witness: on exTrack with pitch ratio 2 the target pitch is
positive. -/
theorem c10_pitch_estimate_positive_witness :
    0 < origPitchMedianOf exTrack * 2 :=
  (c10_pitch_estimate_positive exTrack 2).2.2 (by norm_num)
